import Mathlib

/-!
Shallow embedding of the voyage-creation core of the repository:
`src/components/createVoyageForm.tsx` (zod `voyageSchema`, `onSubmit`,
`createVoyageMutation`, `handlePortOfLoadingChange`, the selection state),
`src/components/multiSelect.tsx` (`handleSelect`, `handleUnselect`,
`handleKeyDown` pop), `src/components/dropdown.tsx` (`Dropdown` mount
effect), and `src/pages/api/voyage/create.ts` (`handler`).
-/

namespace Voyage

/-- The client-side draft shape `VoyageFormData` inferred from `voyageSchema`:
five scalar string fields plus the unit-type id list. -/
structure VoyageFormData where
  departure : String
  arrival : String
  portOfLoading : String
  portOfDischarge : String
  vessel : String
  unitTypes : List String
  deriving DecidableEq, Repr

/-- A zod issue: a path into the object (`[]` would be a form-level error,
`["arrival"]` a field error on `arrival`) together with its message. -/
structure FieldError where
  path : List String
  message : String
  deriving DecidableEq, Repr

/-! ### Model of the JavaScript `Date` host functions

`new Date(s)` and `Date.prototype.toISOString` are host builtins, not code of
the repository.  We model `new Date(s)` as a parse of the
`datetime-local` / ISO shape `YYYY-MM-DDTHH:MM[:SS]` to a scalar timestamp
(`none` plays the role of `Invalid Date`, whose comparisons are all false in
JavaScript), and `toISOString` as the canonical re-rendering
`YYYY-MM-DDTHH:MM:SS.000Z` of that scalar. -/

/-- Split a character list at every occurrence of `c` (model of the string
splitting used to read the date components). -/
def splitOnChar (c : Char) : List Char → List Char → List (List Char)
  | [], acc => [acc.reverse]
  | x :: xs, acc =>
    if x = c then acc.reverse :: splitOnChar c xs [] else splitOnChar c xs (x :: acc)

/-- Read a nonempty all-digit character list as a natural number. -/
def digitsToNat? (l : List Char) : Option Nat :=
  if l ≠ [] ∧ l.all Char.isDigit then
    some (l.foldl (fun a c => a * 10 + (c.toNat - 48)) 0)
  else none

/-- Pack date components into one scalar so that component-lexicographic
order agrees with scalar order (the only use the code makes of `Date` values
is comparison and re-rendering). -/
def packDate (y mo d h mi ss : Nat) : Nat :=
  ((((y * 13 + mo) * 32 + d) * 24 + h) * 60 + mi) * 60 + ss

/-- Model of `new Date(s).getTime()`: `some` timestamp on a well-formed
`YYYY-MM-DDTHH:MM[:SS]` string, `none` (Invalid Date) otherwise; in
particular `jsDate "" = none`. -/
def jsDate (s : String) : Option Nat :=
  match splitOnChar 'T' s.toList [] with
  | [datePart, timePart] =>
    match splitOnChar '-' datePart [], splitOnChar ':' timePart [] with
    | [ys, mos, ds], [hs, mis] =>
      match digitsToNat? ys, digitsToNat? mos, digitsToNat? ds,
            digitsToNat? hs, digitsToNat? mis with
      | some y, some mo, some d, some h, some mi => some (packDate y mo d h mi 0)
      | _, _, _, _, _ => none
    | [ys, mos, ds], [hs, mis, sss] =>
      match digitsToNat? ys, digitsToNat? mos, digitsToNat? ds,
            digitsToNat? hs, digitsToNat? mis, digitsToNat? sss with
      | some y, some mo, some d, some h, some mi, some ss =>
        some (packDate y mo d h mi ss)
      | _, _, _, _, _, _ => none
    | _, _ => none
  | _ => none

/-- Digit character for `d < 10`. -/
def digitChar (d : Nat) : Char := Char.ofNat (48 + d)

/-- Two-digit zero-padded rendering of `n % 100`. -/
def pad2 (n : Nat) : List Char := [digitChar (n / 10 % 10), digitChar (n % 10)]

/-- Four-digit zero-padded rendering of `n % 10000`. -/
def pad4 (n : Nat) : List Char :=
  [digitChar (n / 1000 % 10), digitChar (n / 100 % 10),
   digitChar (n / 10 % 10), digitChar (n % 10)]

/-- Model of `Date.prototype.toISOString` on the packed scalar. -/
def renderISO (t : Nat) : String :=
  let ss := t % 60
  let t1 := t / 60
  let mi := t1 % 60
  let t2 := t1 / 60
  let h := t2 % 24
  let t3 := t2 / 24
  let d := t3 % 32
  let t4 := t3 / 32
  let mo := t4 % 13
  let y := t4 / 13
  String.mk (pad4 y ++ '-' :: pad2 mo ++ '-' :: pad2 d ++ 'T' :: pad2 h ++
    ':' :: pad2 mi ++ ':' :: pad2 ss ++ ['.', '0', '0', '0', 'Z'])

/-- Model of `new Date(s).toISOString()` as used in `onSubmit`.  (On an
unparsable string the JavaScript call would throw; `onSubmit` only runs after
validation, whose cross-field refinement already forces both dates to parse,
so that branch is unreachable in the flow below.) -/
def jsToISO (s : String) : String :=
  match jsDate s with
  | some t => renderISO t
  | none => "Invalid Date"

/-! ### `voyageSchema` (createVoyageForm.tsx lines 14-28) -/

/-- The per-field zod checks of `voyageSchema`: `z.string().min(1, msg)` on
the five scalar fields and `.nonempty(msg)` on the `unitTypes` array, each
failure carrying its field path and message, collected in field order. -/
def requiredErrors (d : VoyageFormData) : List FieldError :=
  (if d.departure = "" then [⟨["departure"], "Departure is required"⟩] else []) ++
  (if d.arrival = "" then [⟨["arrival"], "Arrival is required"⟩] else []) ++
  (if d.portOfLoading = "" then [⟨["portOfLoading"], "Port of loading is required"⟩] else []) ++
  (if d.portOfDischarge = "" then [⟨["portOfDischarge"], "Port of discharge is required"⟩] else []) ++
  (if d.vessel = "" then [⟨["vessel"], "Vessel is required"⟩] else []) ++
  (if d.unitTypes = [] then [⟨["unitTypes"], "At least one unit type is required"⟩] else [])

/-- The `.refine` predicate `new Date(data.arrival) > new Date(data.departure)`;
JavaScript comparisons against an Invalid Date are false. -/
def dateAfter (arrival departure : String) : Bool :=
  match jsDate arrival, jsDate departure with
  | some a, some dep => decide (dep < a)
  | _, _ => false

/-- `voyageSchema.parse`: the per-field checks run first and are all
collected; the cross-field `.refine` runs only when they all pass, and on
failure attaches its message at path `["arrival"]`. -/
def validateVoyage (d : VoyageFormData) : Except (List FieldError) VoyageFormData :=
  let es := requiredErrors d
  if es = [] then
    if dateAfter d.arrival d.departure then Except.ok d
    else Except.error [⟨["arrival"], "Arrival date must be after departure date"⟩]
  else Except.error es

/-! ### Selection state and the port-pairing handler (createVoyageForm.tsx) -/

/-- An option shown by `MultiSelect`/`Dropdown`: `{ value, label }`. -/
structure UnitTypeOption where
  value : String
  label : String
  deriving DecidableEq, Repr

/-- The four `useState` pieces of selection state of `CreateVoyageForm`
(lines 102-107). -/
structure SelectionState where
  selectedVessel : String
  selectedUnitTypes : List UnitTypeOption
  portOfLoading : String
  portOfDischarge : String
  deriving DecidableEq, Repr

/-- The react-hook-form model: the registered field values plus the
field-keyed error map of `formState.errors`. -/
structure FormModel where
  values : VoyageFormData
  errors : List FieldError
  deriving DecidableEq, Repr

/-- Full component state: selection `useState`s mirrored into the form model
via `setValue`. -/
structure ComponentState where
  sel : SelectionState
  form : FormModel
  deriving DecidableEq, Repr

/-- The state `CreateVoyageForm` mounts with: `useState("")` for the vessel
and both ports, `useState([])` for the unit types, and a form model with no
values and no errors. -/
def initialComponentState : ComponentState :=
  { sel := { selectedVessel := "", selectedUnitTypes := [],
             portOfLoading := "", portOfDischarge := "" },
    form := { values := { departure := "", arrival := "", portOfLoading := "",
                          portOfDischarge := "", vessel := "", unitTypes := [] },
              errors := [] } }

/-- `handlePortOfLoadingChange` (createVoyageForm.tsx lines 165-179): store
the chosen port in state and the form, then branch on it to force the port
of discharge. -/
def handlePortOfLoadingChange (selectedPort : String) (st : ComponentState) : ComponentState :=
  let st1 := { st with
    sel := { st.sel with portOfLoading := selectedPort },
    form := { st.form with values := { st.form.values with portOfLoading := selectedPort } } }
  if selectedPort = "Copenhagen" then
    { st1 with
      sel := { st1.sel with portOfDischarge := "Oslo" },
      form := { st1.form with values := { st1.form.values with portOfDischarge := "Oslo" } } }
  else if selectedPort = "Oslo" then
    { st1 with
      sel := { st1.sel with portOfDischarge := "Copenhagen" },
      form := { st1.form with values := { st1.form.values with portOfDischarge := "Copenhagen" } } }
  else
    { st1 with
      sel := { st1.sel with portOfDischarge := "" },
      form := { st1.form with values := { st1.form.values with portOfDischarge := "" } } }

/-! ### `Dropdown` mount effect (dropdown.tsx) -/

/-- The `useEffect` of `Dropdown`: when nothing is selected and the item list
is nonempty, select the first item — this fires on mount, before any user
interaction. -/
def dropdownAutoSelect (items : List UnitTypeOption) (selectedItem : String) : Option String :=
  if selectedItem = "" then
    match items with
    | [] => none
    | i :: _ => some i.value
  else none

/-- The static item list of the port-of-loading `Dropdown`
(createVoyageForm.tsx lines 196-199). -/
def portOfLoadingItems : List UnitTypeOption :=
  [⟨"Copenhagen", "Copenhagen"⟩, ⟨"Oslo", "Oslo"⟩]

/-- Effect of mounting the port-of-loading `Dropdown`: its `useEffect` runs
`setSelectedItem`, which is `handlePortOfLoadingChange`. -/
def mountPortOfLoadingEffect (st : ComponentState) : ComponentState :=
  match dropdownAutoSelect portOfLoadingItems st.sel.portOfLoading with
  | some v => handlePortOfLoadingChange v st
  | none => st

/-! ### `MultiSelect` operations (multiSelect.tsx lines 46-85) -/

/-- `handleSelect`: append the unit type unless one with the same `value` is
already selected. -/
def handleSelect (selected : List UnitTypeOption) (unitType : UnitTypeOption) :
    List UnitTypeOption :=
  if (selected.find? (fun s => s.value = unitType.value)) = none then
    selected ++ [unitType]
  else selected

/-- `handleUnselect`: keep exactly the entries whose `value` differs. -/
def handleUnselect (selected : List UnitTypeOption) (unitType : UnitTypeOption) :
    List UnitTypeOption :=
  selected.filter (fun s => s.value ≠ unitType.value)

/-- The Delete/Backspace branch of `handleKeyDown` on an empty search input:
copy the list and `pop()` its last element (a no-op on an empty array). -/
def popLastSelected (selected : List UnitTypeOption) : List UnitTypeOption :=
  selected.dropLast

/-! ### Submission flow (createVoyageForm.tsx lines 125-162)

`handleSubmit(onSubmit)` runs the zod resolver first; only a fully valid
draft reaches `onSubmit`, which rewrites the two dates with
`new Date(_).toISOString()`, overwrites `vessel` and `unitTypes` from the
selection state, and hands the data to `createVoyageMutation.mutate`.  The
mutation issues the single `fetch` POST; `onSuccess` calls the caller's
callback, `onError` logs.  We record this sequencing as an event trace. -/

/-- Observable events of one submission attempt. -/
inductive SubmitEvent where
  | validationFailed (errors : List FieldError)
  | validated
  | normalized (data : VoyageFormData)
  | posted (body : VoyageFormData)
  | successCallback
  | errorLogged
  deriving DecidableEq, Repr

/-- The data mutations of `onSubmit` (lines 150-159) before `mutate`. -/
def normalizeForSubmit (data : VoyageFormData) (sel : SelectionState) : VoyageFormData :=
  { data with
    departure := jsToISO data.departure,
    arrival := jsToISO data.arrival,
    vessel := sel.selectedVessel,
    unitTypes := sel.selectedUnitTypes.map (fun ut => ut.value) }

/-- One submission attempt: resolver validation, then (only if valid)
normalization, one POST, and the mutation's `onSuccess`/`onError` depending
on `response.ok`.  Returns the event trace and the component state after the
attempt; no handler writes the field values or selections, and the resolver
replaces the error map. -/
def submitFlow (st : ComponentState) (httpOk : Bool) : List SubmitEvent × ComponentState :=
  match validateVoyage st.form.values with
  | Except.error es =>
    ([SubmitEvent.validationFailed es], { st with form := { st.form with errors := es } })
  | Except.ok _ =>
    let d1 := normalizeForSubmit st.form.values st.sel
    (SubmitEvent.validated :: SubmitEvent.normalized d1 :: SubmitEvent.posted d1 ::
      (if httpOk then [SubmitEvent.successCallback] else [SubmitEvent.errorLogged]),
     { st with form := { st.form with errors := [] } })

/-- Recognizer for POST events in a trace. -/
def isPosted : SubmitEvent → Bool
  | SubmitEvent.posted _ => true
  | _ => false

/-- Recognizer for success-callback events in a trace. -/
def isSuccessCallback : SubmitEvent → Bool
  | SubmitEvent.successCallback => true
  | _ => false

/-! ### Create endpoint (src/pages/api/voyage/create.ts) -/

/-- The `data` object handed to `prisma.voyage.create`: scalar fields mapped
directly, `unitTypes` turned into connect-by-id links. -/
structure PrismaVoyageData where
  scheduledDeparture : String
  scheduledArrival : String
  portOfLoading : String
  portOfDischarge : String
  vesselId : String
  unitTypeConnectIds : List String
  deriving DecidableEq, Repr

/-- The field mapping of the handler's `prisma.voyage.create` call
(create.ts lines 70-81). -/
def toPrismaData (b : VoyageFormData) : PrismaVoyageData :=
  { scheduledDeparture := b.departure,
    scheduledArrival := b.arrival,
    portOfLoading := b.portOfLoading,
    portOfDischarge := b.portOfDischarge,
    vesselId := b.vessel,
    unitTypeConnectIds := b.unitTypes }

/-- The record the persistence layer returns on success: a server-populated
id plus the stored data. -/
structure PersistedVoyage where
  id : String
  data : PrismaVoyageData
  deriving DecidableEq, Repr

/-- An HTTP response body as the handler builds it. -/
inductive ResponseBody where
  | voyageJson (v : PersistedVoyage)
  | errorJson (message : String)
  | textBody (s : String)
  deriving DecidableEq, Repr

/-- The response: status, the optional `Allow` header, and the body. -/
structure ApiResponse where
  status : Nat
  allowHeader : Option (List String)
  body : ResponseBody
  deriving DecidableEq, Repr

/-- What one call of the handler did: the response it sent and the data it
passed to `prisma.voyage.create` (`none` when persistence was never
attempted). -/
structure HandlerResult where
  response : ApiResponse
  persistAttempt : Option PrismaVoyageData
  deriving DecidableEq, Repr

/-- The API route `handler` (create.ts lines 55-92), parameterized by the
external persistence outcome: on POST it destructures the body and calls
`prisma.voyage.create` directly; `201` with the created voyage on success,
`500` with the fixed `Internal server error` payload when persistence
throws (the cause `e` is only logged); any other method gets `405` with
`Allow: POST` and the plain-text body. -/
def handler (method : String) (body : VoyageFormData)
    (persist : PrismaVoyageData → Except String PersistedVoyage) : HandlerResult :=
  if method = "POST" then
    let pdata := toPrismaData body
    match persist pdata with
    | Except.ok v =>
      { response := { status := 201, allowHeader := none, body := ResponseBody.voyageJson v },
        persistAttempt := some pdata }
    | Except.error _ =>
      { response := { status := 500, allowHeader := none,
                      body := ResponseBody.errorJson "Internal server error" },
        persistAttempt := some pdata }
  else
    { response := { status := 405, allowHeader := some ["POST"],
                    body := ResponseBody.textBody ("Method " ++ method ++ " not allowed") },
      persistAttempt := none }

/-! ### Concrete sample data used by the witnesses -/

/-- A draft whose arrival precedes its departure while every other field is
individually valid. -/
def sampleBadOrderDraft : VoyageFormData :=
  { departure := "2025-01-02T10:00", arrival := "2025-01-01T10:00",
    portOfLoading := "Copenhagen", portOfDischarge := "Oslo",
    vessel := "v1", unitTypes := ["u1"] }

/-- A fully valid component state: form values pass the schema and the
selection state mirrors them. -/
def sampleValidState : ComponentState :=
  { sel := { selectedVessel := "v1",
             selectedUnitTypes := [⟨"u1", "Trailer"⟩],
             portOfLoading := "Copenhagen", portOfDischarge := "Oslo" },
    form := { values := { departure := "2025-01-01T10:00", arrival := "2025-01-02T10:00",
                          portOfLoading := "Copenhagen", portOfDischarge := "Oslo",
                          vessel := "v1", unitTypes := ["u1"] },
              errors := [] } }

/-! ## Claims -/

/-- C1: for every draft whose arrival timestamp is less than or equal to its
departure timestamp, with all other fields individually valid, validation
fails and the only error is "Arrival date must be after departure date",
attached at path `["arrival"]` (a field error on `arrival`, not a form-level
error at path `[]`). -/
theorem arrival_not_after_departure_rejected_on_arrival_field
    (d : VoyageFormData) (a dep : Nat)
    (ha : jsDate d.arrival = some a) (hdep : jsDate d.departure = some dep)
    (hle : a ≤ dep)
    (h1 : d.departure ≠ "") (h2 : d.arrival ≠ "") (h3 : d.portOfLoading ≠ "")
    (h4 : d.portOfDischarge ≠ "") (h5 : d.vessel ≠ "") (h6 : d.unitTypes ≠ []) :
    validateVoyage d =
      Except.error [⟨["arrival"], "Arrival date must be after departure date"⟩] := by
  have hre : requiredErrors d = [] := by
    simp [requiredErrors, h1, h2, h3, h4, h5, h6]
  have hda : dateAfter d.arrival d.departure = false := by
    simp [dateAfter, ha, hdep]
    omega
  simp [validateVoyage, hre, hda]

/-- C1 witness: the sample draft arriving one day before departing is
rejected with the cross-field message on the `arrival` field. -/
theorem arrival_not_after_departure_rejected_on_arrival_field_witness :
    jsDate sampleBadOrderDraft.arrival = some (packDate 2025 1 1 10 0 0) ∧
    jsDate sampleBadOrderDraft.departure = some (packDate 2025 1 2 10 0 0) ∧
    packDate 2025 1 1 10 0 0 ≤ packDate 2025 1 2 10 0 0 ∧
    validateVoyage sampleBadOrderDraft =
      Except.error [⟨["arrival"], "Arrival date must be after departure date"⟩] :=
  ⟨by decide, by decide, by decide,
    arrival_not_after_departure_rejected_on_arrival_field sampleBadOrderDraft
      (packDate 2025 1 1 10 0 0) (packDate 2025 1 2 10 0 0)
      (by decide) (by decide) (by decide) (by decide) (by decide)
      (by decide) (by decide) (by decide) (by decide)⟩

/-- C2: the port-pairing rule of `handlePortOfLoadingChange` is a pure total
function of the port-of-loading string alone: "Copenhagen" forces discharge
"Oslo", "Oslo" forces "Copenhagen", and every other input — including the
empty string — clears the discharge to the empty value; the resulting
discharge is independent of the rest of the state and is mirrored
identically into the form model. -/
theorem port_pairing_total_function (s : String) (st st' : ComponentState) :
    (handlePortOfLoadingChange "Copenhagen" st).sel.portOfDischarge = "Oslo" ∧
    (handlePortOfLoadingChange "Oslo" st).sel.portOfDischarge = "Copenhagen" ∧
    (s ≠ "Copenhagen" → s ≠ "Oslo" →
      (handlePortOfLoadingChange s st).sel.portOfDischarge = "") ∧
    (handlePortOfLoadingChange "" st).sel.portOfDischarge = "" ∧
    (handlePortOfLoadingChange s st).sel.portOfDischarge =
      (handlePortOfLoadingChange s st').sel.portOfDischarge ∧
    (handlePortOfLoadingChange s st).form.values.portOfDischarge =
      (handlePortOfLoadingChange s st).sel.portOfDischarge := by
  refine ⟨by simp [handlePortOfLoadingChange], by simp [handlePortOfLoadingChange],
    ?_, by simp [handlePortOfLoadingChange], ?_, ?_⟩
  · intro hc ho
    simp [handlePortOfLoadingChange, hc, ho]
  · by_cases hc : s = "Copenhagen" <;> by_cases ho : s = "Oslo" <;>
      simp [handlePortOfLoadingChange, hc, ho]
  · by_cases hc : s = "Copenhagen" <;> by_cases ho : s = "Oslo" <;>
      simp [handlePortOfLoadingChange, hc, ho]

/-- C2 witness: an unrecognized port such as "Gothenburg" clears the port of
discharge. -/
theorem port_pairing_total_function_witness :
    ("Gothenburg" : String) ≠ "Copenhagen" ∧ ("Gothenburg" : String) ≠ "Oslo" ∧
    (handlePortOfLoadingChange "Gothenburg" initialComponentState).sel.portOfDischarge = "" :=
  ⟨by decide, by decide,
    (port_pairing_total_function "Gothenburg" initialComponentState
      initialComponentState).2.2.1 (by decide) (by decide)⟩

/-- C3: whenever any of the five scalar fields is empty or the unit-type
list is empty, validation fails with the complete list of per-field required
errors: each empty field contributes its own field-specific message, and no
valid object is ever produced alongside them. -/
theorem required_fields_field_specific_errors (d : VoyageFormData)
    (h : d.departure = "" ∨ d.arrival = "" ∨ d.portOfLoading = "" ∨
         d.portOfDischarge = "" ∨ d.vessel = "" ∨ d.unitTypes = []) :
    validateVoyage d = Except.error (requiredErrors d) ∧
    requiredErrors d ≠ [] ∧
    (d.departure = "" →
      (⟨["departure"], "Departure is required"⟩ : FieldError) ∈ requiredErrors d) ∧
    (d.arrival = "" →
      (⟨["arrival"], "Arrival is required"⟩ : FieldError) ∈ requiredErrors d) ∧
    (d.portOfLoading = "" →
      (⟨["portOfLoading"], "Port of loading is required"⟩ : FieldError) ∈ requiredErrors d) ∧
    (d.portOfDischarge = "" →
      (⟨["portOfDischarge"], "Port of discharge is required"⟩ : FieldError) ∈ requiredErrors d) ∧
    (d.vessel = "" →
      (⟨["vessel"], "Vessel is required"⟩ : FieldError) ∈ requiredErrors d) ∧
    (d.unitTypes = [] →
      (⟨["unitTypes"], "At least one unit type is required"⟩ : FieldError) ∈ requiredErrors d) ∧
    (∀ v, validateVoyage d ≠ Except.ok v) := by
  have hne : requiredErrors d ≠ [] := by
    rcases h with h | h | h | h | h | h
    · exact List.ne_nil_of_mem
        (show (⟨["departure"], "Departure is required"⟩ : FieldError) ∈ requiredErrors d by
          simp [requiredErrors, h])
    · exact List.ne_nil_of_mem
        (show (⟨["arrival"], "Arrival is required"⟩ : FieldError) ∈ requiredErrors d by
          simp [requiredErrors, h])
    · exact List.ne_nil_of_mem
        (show (⟨["portOfLoading"], "Port of loading is required"⟩ : FieldError) ∈ requiredErrors d by
          simp [requiredErrors, h])
    · exact List.ne_nil_of_mem
        (show (⟨["portOfDischarge"], "Port of discharge is required"⟩ : FieldError) ∈ requiredErrors d by
          simp [requiredErrors, h])
    · exact List.ne_nil_of_mem
        (show (⟨["vessel"], "Vessel is required"⟩ : FieldError) ∈ requiredErrors d by
          simp [requiredErrors, h])
    · exact List.ne_nil_of_mem
        (show (⟨["unitTypes"], "At least one unit type is required"⟩ : FieldError) ∈ requiredErrors d by
          simp [requiredErrors, h])
  have hmain : validateVoyage d = Except.error (requiredErrors d) := by
    simp only [validateVoyage]
    rw [if_neg hne]
  refine ⟨hmain, hne, ?_, ?_, ?_, ?_, ?_, ?_, ?_⟩
  · intro he; simp [requiredErrors, he]
  · intro he; simp [requiredErrors, he]
  · intro he; simp [requiredErrors, he]
  · intro he; simp [requiredErrors, he]
  · intro he; simp [requiredErrors, he]
  · intro he; simp [requiredErrors, he]
  · intro v
    rw [hmain]
    simp

/-- C3 witness: the all-empty draft the form mounts with fails validation
and the departure field carries its own required message. -/
theorem required_fields_field_specific_errors_witness :
    (initialComponentState.form.values.departure = "" ∨
      initialComponentState.form.values.arrival = "" ∨
      initialComponentState.form.values.portOfLoading = "" ∨
      initialComponentState.form.values.portOfDischarge = "" ∨
      initialComponentState.form.values.vessel = "" ∨
      initialComponentState.form.values.unitTypes = []) ∧
    validateVoyage initialComponentState.form.values =
      Except.error (requiredErrors initialComponentState.form.values) ∧
    (⟨["departure"], "Departure is required"⟩ : FieldError) ∈
      requiredErrors initialComponentState.form.values :=
  ⟨Or.inl rfl,
    (required_fields_field_specific_errors initialComponentState.form.values (Or.inl rfl)).1,
    (required_fields_field_specific_errors initialComponentState.form.values (Or.inl rfl)).2.2.1 rfl⟩

/-- C4: the create endpoint sends `405` with a plain-text body and an
`Allow: POST` header for every non-POST method, `201` with the created
voyage JSON when persistence succeeds, and `500` with the fixed
`Internal server error` JSON when persistence fails — for every failure
cause `e`, so the cause is never echoed to the client. -/
theorem create_endpoint_method_and_status_contract :
    (∀ m b persist, m ≠ "POST" →
      handler m b persist =
        { response := { status := 405, allowHeader := some ["POST"],
                        body := ResponseBody.textBody ("Method " ++ m ++ " not allowed") },
          persistAttempt := none }) ∧
    (∀ b v, handler "POST" b (fun _ => Except.ok v) =
      { response := { status := 201, allowHeader := none,
                      body := ResponseBody.voyageJson v },
        persistAttempt := some (toPrismaData b) }) ∧
    (∀ b e, handler "POST" b (fun _ => Except.error e) =
      { response := { status := 500, allowHeader := none,
                      body := ResponseBody.errorJson "Internal server error" },
        persistAttempt := some (toPrismaData b) }) := by
  refine ⟨?_, ?_, ?_⟩
  · intro m b persist hm
    simp [handler, hm]
  · intro b v
    simp [handler]
  · intro b e
    simp [handler]

/-- C4 witness: a GET request is answered with the 405 response and the
`Allow: POST` header. -/
theorem create_endpoint_method_and_status_contract_witness :
    ("GET" : String) ≠ "POST" ∧
    handler "GET" sampleBadOrderDraft (fun _ => Except.error "db down") =
      { response := { status := 405, allowHeader := some ["POST"],
                      body := ResponseBody.textBody ("Method " ++ "GET" ++ " not allowed") },
        persistAttempt := none } :=
  ⟨by decide,
    create_endpoint_method_and_status_contract.1 "GET" sampleBadOrderDraft
      (fun _ => Except.error "db down") (by decide)⟩

/-- C5: selecting a unit type whose identifier is already selected leaves
the list unchanged; selecting a new one appends it at the end, keeping all
prior elements in order; unselecting keeps exactly the entries with a
different identifier, in their original order (the result is a sublist). -/
theorem multiselect_select_unselect_laws (selected : List UnitTypeOption) (u : UnitTypeOption) :
    ((∃ s ∈ selected, s.value = u.value) → handleSelect selected u = selected) ∧
    ((∀ s ∈ selected, s.value ≠ u.value) → handleSelect selected u = selected ++ [u]) ∧
    (∀ x, x ∈ handleUnselect selected u ↔ x ∈ selected ∧ x.value ≠ u.value) ∧
    (handleUnselect selected u).Sublist selected := by
  refine ⟨?_, ?_, ?_, ?_⟩
  · rintro ⟨s, hs, hv⟩
    have hf : ¬ (selected.find? (fun x => x.value = u.value) = none) := by
      simp only [List.find?_eq_none, not_forall]
      exact ⟨s, ⟨hs, by simp [hv]⟩⟩
    simp [handleSelect, hf]
  · intro h
    have hf : selected.find? (fun x => x.value = u.value) = none := by
      rw [List.find?_eq_none]
      intro x hx
      simp [h x hx]
    simp [handleSelect, hf]
  · intro x
    simp [handleUnselect, List.mem_filter]
  · exact List.filter_sublist _

/-- C5 witness: re-selecting id "u1" is a no-op and selecting the fresh id
"u2" appends it. -/
theorem multiselect_select_unselect_laws_witness :
    (∃ s ∈ [(⟨"u1", "Trailer"⟩ : UnitTypeOption)],
      s.value = (⟨"u1", "Box"⟩ : UnitTypeOption).value) ∧
    handleSelect [⟨"u1", "Trailer"⟩] ⟨"u1", "Box"⟩ = [⟨"u1", "Trailer"⟩] ∧
    handleSelect [⟨"u1", "Trailer"⟩] ⟨"u2", "Box"⟩ =
      [⟨"u1", "Trailer"⟩, ⟨"u2", "Box"⟩] :=
  ⟨⟨⟨"u1", "Trailer"⟩, by simp, rfl⟩,
    (multiselect_select_unselect_laws [⟨"u1", "Trailer"⟩] ⟨"u1", "Box"⟩).1
      ⟨⟨"u1", "Trailer"⟩, by simp, rfl⟩,
    (multiselect_select_unselect_laws [⟨"u1", "Trailer"⟩] ⟨"u2", "Box"⟩).2.1
      (by decide)⟩

/-- C6: one submission of a valid draft produces exactly the trace
validation, then normalization, then a single POST whose body carries the
ISO-rendered dates and the vessel and unit types taken from the selection
state, then — the response being HTTP-ok — exactly one success-callback
invocation. -/
theorem submission_orders_validate_normalize_post_once
    (st : ComponentState) (v : VoyageFormData)
    (hvalid : validateVoyage st.form.values = Except.ok v) :
    (submitFlow st true).1 =
      [SubmitEvent.validated,
       SubmitEvent.normalized (normalizeForSubmit st.form.values st.sel),
       SubmitEvent.posted (normalizeForSubmit st.form.values st.sel),
       SubmitEvent.successCallback] ∧
    (submitFlow st true).1.countP isPosted = 1 ∧
    (submitFlow st true).1.countP isSuccessCallback = 1 ∧
    (normalizeForSubmit st.form.values st.sel).departure =
      jsToISO st.form.values.departure ∧
    (normalizeForSubmit st.form.values st.sel).arrival =
      jsToISO st.form.values.arrival ∧
    (normalizeForSubmit st.form.values st.sel).vessel = st.sel.selectedVessel ∧
    (normalizeForSubmit st.form.values st.sel).unitTypes =
      st.sel.selectedUnitTypes.map (fun ut => ut.value) := by
  refine ⟨?_, ?_, ?_, rfl, rfl, rfl, rfl⟩ <;>
    simp [submitFlow, hvalid, List.countP_cons, isPosted, isSuccessCallback]

/-- C6 witness: the sample valid state submits with the full
validate-normalize-post-callback trace. -/
theorem submission_orders_validate_normalize_post_once_witness :
    validateVoyage sampleValidState.form.values =
      Except.ok sampleValidState.form.values ∧
    (submitFlow sampleValidState true).1 =
      [SubmitEvent.validated,
       SubmitEvent.normalized
         (normalizeForSubmit sampleValidState.form.values sampleValidState.sel),
       SubmitEvent.posted
         (normalizeForSubmit sampleValidState.form.values sampleValidState.sel),
       SubmitEvent.successCallback] :=
  ⟨by rfl,
    (submission_orders_validate_normalize_post_once sampleValidState
      sampleValidState.form.values (by rfl)).1⟩

/-- C7: when the endpoint answers with a non-success status, the flow never
invokes the success callback, logs the failure instead of attaching a field
error (the error map stays empty), and leaves every field value and every
selection unchanged, so the user may retry. -/
theorem failed_submission_preserves_draft_no_callback
    (st : ComponentState) (v : VoyageFormData)
    (hvalid : validateVoyage st.form.values = Except.ok v) :
    SubmitEvent.successCallback ∉ (submitFlow st false).1 ∧
    SubmitEvent.errorLogged ∈ (submitFlow st false).1 ∧
    (submitFlow st false).2.form.values = st.form.values ∧
    (submitFlow st false).2.sel = st.sel ∧
    (submitFlow st false).2.form.errors = [] := by
  refine ⟨?_, ?_, ?_, ?_, ?_⟩ <;> simp [submitFlow, hvalid]

/-- C7 witness: a 500 answer to the sample valid state triggers no success
callback and leaves its field values intact. -/
theorem failed_submission_preserves_draft_no_callback_witness :
    validateVoyage sampleValidState.form.values =
      Except.ok sampleValidState.form.values ∧
    SubmitEvent.successCallback ∉ (submitFlow sampleValidState false).1 ∧
    (submitFlow sampleValidState false).2.form.values = sampleValidState.form.values :=
  ⟨by rfl,
    (failed_submission_preserves_draft_no_callback sampleValidState
      sampleValidState.form.values (by rfl)).1,
    (failed_submission_preserves_draft_no_callback sampleValidState
      sampleValidState.form.values (by rfl)).2.2.1⟩

/-- C8: for every POST body — here one the client schema rejects — the
handler hands the mapped record straight to persistence and answers only
201 or 500, never a 400-class validation response, so an
invariant-violating record can be persisted. -/
theorem create_endpoint_no_server_revalidation (b : VoyageFormData)
    (es : List FieldError)
    (persist : PrismaVoyageData → Except String PersistedVoyage)
    (_hinvalid : validateVoyage b = Except.error es) :
    (handler "POST" b persist).persistAttempt = some (toPrismaData b) ∧
    ((handler "POST" b persist).response.status = 201 ∨
      (handler "POST" b persist).response.status = 500) ∧
    ¬ (400 ≤ (handler "POST" b persist).response.status ∧
        (handler "POST" b persist).response.status < 500) := by
  rcases hp : persist (toPrismaData b) with pv | e <;> simp [handler, hp]

/-- C8 witness: the draft whose arrival precedes its departure — rejected by
the client schema — is still passed to persistence unchanged by the
endpoint. -/
theorem create_endpoint_no_server_revalidation_witness :
    validateVoyage sampleBadOrderDraft =
      Except.error [⟨["arrival"], "Arrival date must be after departure date"⟩] ∧
    (handler "POST" sampleBadOrderDraft
        (fun pd => Except.ok ⟨"voyage-1", pd⟩)).persistAttempt =
      some (toPrismaData sampleBadOrderDraft) :=
  ⟨by rfl,
    (create_endpoint_no_server_revalidation sampleBadOrderDraft
      [⟨["arrival"], "Arrival date must be after departure date"⟩]
      (fun pd => Except.ok ⟨"voyage-1", pd⟩) (by rfl)).1⟩

/-- C9 counterexample: the claim that fields change only through user
interaction fails at the concrete mount state: the port-of-loading
`Dropdown`'s effect fires on mount with the static two-port item list and —
with zero user interactions — moves the freshly mounted component away from
its initial state, auto-selecting "Copenhagen" and deriving discharge
"Oslo". -/
theorem mount_autoselect_counterexample :
    (mountPortOfLoadingEffect initialComponentState).sel.portOfLoading = "Copenhagen" ∧
    (mountPortOfLoadingEffect initialComponentState).sel.portOfDischarge = "Oslo" ∧
    (mountPortOfLoadingEffect initialComponentState).form.values.portOfLoading = "Copenhagen" ∧
    mountPortOfLoadingEffect initialComponentState ≠ initialComponentState := by
  decide

/-- C9 amended: the draft is created with every scalar field empty and the
unit-type selection empty, but the `Dropdown` mount effect then auto-selects
the first available option when nothing is selected, so the port fields are
populated without user interaction. -/
theorem initial_draft_empty_with_mount_autoselect :
    initialComponentState.form.values.departure = "" ∧
    initialComponentState.form.values.arrival = "" ∧
    initialComponentState.form.values.portOfLoading = "" ∧
    initialComponentState.form.values.portOfDischarge = "" ∧
    initialComponentState.form.values.vessel = "" ∧
    initialComponentState.form.values.unitTypes = [] ∧
    initialComponentState.sel.selectedVessel = "" ∧
    initialComponentState.sel.selectedUnitTypes = [] ∧
    initialComponentState.sel.portOfLoading = "" ∧
    initialComponentState.sel.portOfDischarge = "" ∧
    initialComponentState.form.errors = [] ∧
    (mountPortOfLoadingEffect initialComponentState).sel.portOfLoading = "Copenhagen" ∧
    (mountPortOfLoadingEffect initialComponentState).sel.portOfDischarge = "Oslo" := by
  decide

/-- C10: each mutating operation on the selected unit types — select,
unselect by identifier, and the Delete-key pop — preserves freedom from
duplicate identifiers, and the pop on an empty list yields the empty list
rather than failing. -/
theorem selected_unit_values_nodup_invariant (selected : List UnitTypeOption)
    (u : UnitTypeOption)
    (h : (selected.map UnitTypeOption.value).Nodup) :
    ((handleSelect selected u).map UnitTypeOption.value).Nodup ∧
    ((handleUnselect selected u).map UnitTypeOption.value).Nodup ∧
    ((popLastSelected selected).map UnitTypeOption.value).Nodup ∧
    popLastSelected ([] : List UnitTypeOption) = [] := by
  refine ⟨?_, ?_, ?_, rfl⟩
  · by_cases hf : selected.find? (fun x => x.value = u.value) = none
    · rw [List.find?_eq_none] at hf
      have hnotin : u.value ∉ selected.map UnitTypeOption.value := by
        intro hmem
        obtain ⟨x, hx, hv⟩ := List.mem_map.mp hmem
        have hc := hf x hx
        simp [hv] at hc
      have hsel : handleSelect selected u = selected ++ [u] := by
        simp [handleSelect, List.find?_eq_none.mpr hf]
      rw [hsel, List.map_append]
      exact List.Nodup.append h (List.nodup_singleton _)
        (by simpa [List.disjoint_singleton] using hnotin)
    · simp only [handleSelect, if_neg hf]
      exact h
  · exact ((List.filter_sublist _).map _).nodup h
  · exact ((List.dropLast_sublist _).map _).nodup h

/-- C10 witness: appending a fresh id to a duplicate-free singleton keeps
the identifier list duplicate-free. -/
theorem selected_unit_values_nodup_invariant_witness :
    (([⟨"u1", "Trailer"⟩] : List UnitTypeOption).map UnitTypeOption.value).Nodup ∧
    ((handleSelect [⟨"u1", "Trailer"⟩] ⟨"u2", "Box"⟩).map UnitTypeOption.value).Nodup :=
  ⟨by decide,
    (selected_unit_values_nodup_invariant [⟨"u1", "Trailer"⟩] ⟨"u2", "Box"⟩
      (by decide)).1⟩

end Voyage
